import Mathlib

/-!
Verification development for the Wells Fargo statement-to-CSV converter.

The C++ sources embedded here are `src/pdf_processor.cpp` (the parsing
pipeline) and `src/exception_rk.cpp`.  C++ strings are modelled as Lean
`String`s viewed as lists of characters (all inputs of interest are ASCII,
so character positions coincide with the byte positions `std::string`
uses).  `size_t` arithmetic is modelled on `Nat` with explicit reduction
modulo `2^64`, with `std::string::npos = 2^64 - 1`.  C++ operations that
can throw (`substr` with an out-of-range position, `stoi`/`stod` with no
digits) return `Except ParseErr` values; the single error `malformedLine`
stands for the spec's `MalformedLineError` (any exception escaping field
extraction).
-/

deriving instance DecidableEq for Except

namespace WFStmt

/-- `std::string::npos` for a 64-bit `size_t`. -/
def npos : Nat := 2 ^ 64 - 1

/-- `size_t` addition (wraps modulo `2^64`). -/
def addWrap (a b : Nat) : Nat := (a + b) % 2 ^ 64

/-- `size_t` subtraction `a - b` for `b < 2^64` (wraps modulo `2^64`). -/
def subWrap (a b : Nat) : Nat := (a + (2 ^ 64 - b)) % 2 ^ 64

/-- The one modelled error: any exception escaping field extraction
(`std::out_of_range` from `substr`, `std::invalid_argument` from
`stoi`/`stod`); the spec calls this `MalformedLineError`. -/
inductive ParseErr where
  | malformedLine
deriving DecidableEq

/-- Index of the first character satisfying `p`, counting from `i`. -/
def charFind (p : Char → Bool) : List Char → Nat → Option Nat
  | [], _ => none
  | a :: l, i => if p a then some i else charFind p l (i + 1)

/-- Index of the last character satisfying `p`. -/
def charFindLast (p : Char → Bool) : List Char → Option Nat
  | [] => none
  | a :: l =>
    match charFindLast p l with
    | some k => some (k + 1)
    | none => if p a then some 0 else none

/-- `std::string::find(c, start)`: first index `≥ start` holding `c`, else `npos`. -/
def cppFind (s : String) (c : Char) (start : Nat) : Nat :=
  match charFind (fun a => a == c) (s.toList.drop start) 0 with
  | some k => start + k
  | none => npos

/-- `std::string::rfind(c)`: last index holding `c`, else `npos`. -/
def cppRfind (s : String) (c : Char) : Nat :=
  match charFindLast (fun a => a == c) s.toList with
  | some k => k
  | none => npos

/-- `std::string::find_first_not_of(cs)`: first index whose character is not
in `cs`, else `npos`. -/
def findFirstNotOf (s : String) (cs : List Char) : Nat :=
  match charFind (fun a => !(cs.contains a)) s.toList 0 with
  | some k => k
  | none => npos

/-- `std::string::find_last_not_of(cs)`: last index whose character is not
in `cs`, else `npos`. -/
def findLastNotOf (s : String) (cs : List Char) : Nat :=
  match charFindLast (fun a => !(cs.contains a)) s.toList with
  | some k => k
  | none => npos

/-- `std::string::substr(pos)`: throws `std::out_of_range` when
`pos > size()`, otherwise the suffix from `pos`. -/
def cppSubstr (s : String) (pos : Nat) : Except ParseErr String :=
  if pos > s.toList.length then Except.error ParseErr.malformedLine
  else Except.ok (String.mk (s.toList.drop pos))

/-- `std::string::substr(pos, count)`: throws `std::out_of_range` when
`pos > size()`, otherwise at most `count` characters from `pos`. -/
def cppSubstrLen (s : String) (pos count : Nat) : Except ParseErr String :=
  if pos > s.toList.length then Except.error ParseErr.malformedLine
  else Except.ok (String.mk ((s.toList.drop pos).take count))

/-- The whitespace set `" \t\n\r"` used by `PdfProcessor::trim` and the
name-extraction step. -/
def trimWS : List Char := [' ', '\t', '\n', '\r']

/-- Whitespace recognised by `std::stoi` / `std::stod` before the number. -/
def numWS : List Char := [' ', '\t', '\n', '\x0b', '\x0c', '\r']

/-- Value of a run of decimal digits (most significant first). -/
def digitsToNat (l : List Char) : Nat :=
  l.foldl (fun n c => n * 10 + (c.toNat - 48)) 0

/-- `std::stoi`: skip leading whitespace, optional sign, then a nonempty
run of digits (trailing garbage ignored); throws when no digits follow. -/
def cppStoi (s : String) : Except ParseErr Int :=
  let l := s.toList.dropWhile (fun c => numWS.contains c)
  match l with
  | '-' :: rest =>
    let ds := rest.takeWhile Char.isDigit
    if ds.isEmpty then Except.error ParseErr.malformedLine
    else Except.ok (-(digitsToNat ds : Int))
  | '+' :: rest =>
    let ds := rest.takeWhile Char.isDigit
    if ds.isEmpty then Except.error ParseErr.malformedLine
    else Except.ok (digitsToNat ds : Int)
  | _ =>
    let ds := l.takeWhile Char.isDigit
    if ds.isEmpty then Except.error ParseErr.malformedLine
    else Except.ok (digitsToNat ds : Int)

/-- `std::stod`, restricted to the plain decimal forms statement amounts
take (optional sign, digits, optional point and digits — no exponent or
hex, which never occur in amount strings); the numeric value is kept exact
as a rational.  Throws when no digit is present. -/
def cppStod (s : String) : Except ParseErr ℚ :=
  let l := s.toList.dropWhile (fun c => numWS.contains c)
  let signed : Bool × List Char :=
    match l with
    | '-' :: rest => (true, rest)
    | '+' :: rest => (false, rest)
    | _ => (false, l)
  let ip := signed.2.takeWhile Char.isDigit
  let rest1 := signed.2.dropWhile Char.isDigit
  let fp : List Char :=
    match rest1 with
    | '.' :: r => r.takeWhile Char.isDigit
    | _ => []
  if ip.isEmpty && fp.isEmpty then Except.error ParseErr.malformedLine
  else
    let mag : ℚ := mkRat (digitsToNat ip * 10 ^ fp.length + digitsToNat fp) (10 ^ fp.length)
    Except.ok (if signed.1 then -mag else mag)

/-- `PdfProcessor::trim` (pdf_processor.cpp:19-28), step for step:
`leading = find_first_not_of(" \t\n\r")`; when `leading != 0` the result is
shifted by `substr(leading)` (which throws when `leading = npos`, i.e. on
empty or all-whitespace input); `end = find_last_not_of` on the ORIGINAL
string; return `""` when `end = npos`, else `result.substr(0, end + 1)`. -/
def trim (str : String) : Except ParseErr String := do
  let leading := findFirstNotOf str trimWS
  let result ← if leading ≠ 0 then cppSubstr str leading else Except.ok str
  let e := findLastNotOf str trimWS
  if e = npos then Except.ok ""
  else cppSubstrLen result 0 (addWrap e 1)

/-- Calendar date as built by `Date date(year, month, day)`. -/
structure Date where
  year : Int
  month : Int
  day : Int
deriving DecidableEq

/-- The fields `PdfProcessor::generateTransaction` stores through the
`Transaction` setters; `refNum` defaults to `""` (never set for interest
charges, like a default-constructed `std::string`). -/
structure Transaction where
  lastFour : String
  date : Date
  refNum : String
  name : String
  amount : ℚ
deriving DecidableEq

/-- Modelled from the spec: `constants::REF_NUM_SIZE` lives in the missing
`constants.h`; §3/§8 fix the reference number as a fixed-width token and the
spec's example value `"REF001234"` has width 9. -/
def REF_NUM_SIZE : Nat := 9

/-- pdf_processor.cpp:236-239: for the new format, drop the leading
last-four token — `line = line.substr(line.find_first_not_of(" \t") + 4)`. -/
def stripLastFour (line0 : String) (isOldFormat isInterestCharge : Bool) :
    Except ParseErr String :=
  if !isOldFormat && !isInterestCharge then
    cppSubstr line0 (addWrap (findFirstNotOf line0 [' ', '\t']) 4)
  else Except.ok line0

/-- pdf_processor.cpp:241-245: `dateIdx = line.find("/")`,
`month = stoi(line.substr(dateIdx - 2, 2))`,
`day = stoi(line.substr(dateIdx + 1, 2))`.  The C++ local `dateIdx` is
recomputed in place of a binder (the expression is pure). -/
def parseMonthDay (line : String) : Except ParseErr (Int × Int) := do
  let monthStr ← cppSubstrLen line (subWrap (cppFind line '/' 0) 2) 2
  let month ← cppStoi monthStr
  let dayStr ← cppSubstrLen line (addWrap (cppFind line '/' 0) 1) 2
  let day ← cppStoi dayStr
  Except.ok (month, day)

/-- pdf_processor.cpp:255: remove the date —
`line = line.substr(line.find("/", dateIdx + 1) + 3)`, `dateIdx` being
`line.find("/")`. -/
def removeDate (line : String) : Except ParseErr String :=
  cppSubstr line (addWrap (cppFind line '/' (addWrap (cppFind line '/' 0) 1)) 3)

/-- pdf_processor.cpp:257-265: the reference number, a `REF_NUM_SIZE`-wide
token at the first non-space position, removed from the line afterwards;
skipped entirely for interest charges (the record keeps the default
empty string).  Returns (reference number, rest of line). -/
def parseRefNum (line : String) (isInterestCharge : Bool) :
    Except ParseErr (String × String) :=
  if isInterestCharge then Except.ok ("", line)
  else do
    let rn ← cppSubstrLen line (findFirstNotOf line [' ']) REF_NUM_SIZE
    let l2 ← cppSubstr line (addWrap (findFirstNotOf line [' ']) REF_NUM_SIZE)
    Except.ok (rn, l2)

/-- pdf_processor.cpp:267-276: trim, take the token after the last space
(`amountIdx = line.rfind(' ') + 1`), strip commas, parse with `stod`, and
cut the line to `substr(0, amountIdx - 1)`.  Returns (amount, rest). -/
def parseAmount (line0 : String) : Except ParseErr (ℚ × String) := do
  let line ← trim line0
  let amountStr ← cppSubstr line (addWrap (cppRfind line ' ') 1)
  let amount ← cppStod (String.mk (amountStr.toList.filter (fun c => !(c == ','))))
  let rest ← cppSubstrLen line 0 (subWrap (addWrap (cppRfind line ' ') 1) 1)
  Except.ok (amount, rest)

/-- pdf_processor.cpp:278-283: the name is
`line.substr(0, line.find_last_not_of(" \t\n\r") + 1)`. -/
def parseName (line : String) : Except ParseErr String :=
  cppSubstrLen line 0 (addWrap (findLastNotOf line trimWS) 1)

/-- The string-parsing work of `PdfProcessor::generateTransaction`
(pdf_processor.cpp:236-283), in the source's extraction order: strip the
leading last-four token (new format), parse month/day, remove the date,
take the reference number, the amount, and the name.  These five values
depend only on the line and the two format flags; the year/last-four
inputs enter in `generateTransaction` below. -/
def parseFields (line0 : String) (isOldFormat isInterestCharge : Bool) :
    Except ParseErr (Int × Int × String × ℚ × String) := do
  let line ← stripLastFour line0 isOldFormat isInterestCharge
  let md ← parseMonthDay line
  let line2 ← removeDate line
  let rnl ← parseRefNum line2 isInterestCharge
  let al ← parseAmount rnl.2
  let nm ← parseName al.2
  Except.ok (md.1, md.2, rnl.1, al.1, nm)

/-- `PdfProcessor::generateTransaction` (pdf_processor.cpp:226-286): the
record built from the parsed fields, the scanner-provided last four, and
the year with the January-statement/December-transaction correction
(pdf_processor.cpp:246-252). -/
def generateTransaction (line0 : String) (year : Int) (isJanuaryStatement : Bool)
    (lastFour : String) (isOldFormat isInterestCharge : Bool) :
    Except ParseErr Transaction :=
  match parseFields line0 isOldFormat isInterestCharge with
  | Except.error e => Except.error e
  | Except.ok (month, day, rn, amount, nm) =>
    let year1 := if isJanuaryStatement && (month == 12) then year - 1 else year
    Except.ok { lastFour := lastFour, date := ⟨year1, month, day⟩,
                refNum := rn, name := nm, amount := amount }

/-- The regex patterns of the missing `constants.h`, kept abstract: each
field answers whether a line matches the corresponding pattern
(`regex_match` for the three transaction shapes, `regex_search` for the
rest, exactly as `processPdfs` applies them). -/
structure Patterns where
  isLastFour : String → Bool
  isTitle : String → Bool
  isTxNew : String → Bool
  isTxInterest : String → Bool
  isTxOld : String → Bool
  isSkip : String → Bool
  isSkipRelevant : String → Bool

/-- The per-statement mutable state of the line loop of
`PdfProcessor::processPdfs` (pdf_processor.cpp:113-201): the title
counter, the last-four flag and value, and the two output sinks
(transaction list, skipped-lines log sans banner). -/
structure ScanState where
  titleCount : Nat
  lastFourFound : Bool
  lastFour : String
  transactions : List Transaction
  skippedLines : List String
deriving DecidableEq

/-- The state the loop starts from for each statement. -/
def initState : ScanState :=
  { titleCount := 0, lastFourFound := false, lastFour := "",
    transactions := [], skippedLines := [] }

/-- pdf_processor.cpp:138: `lastFour = line.substr(line.rfind(' ') + 1, 4)`. -/
def extractLastFour (line : String) : Except ParseErr String :=
  cppSubstrLen line (addWrap (cppRfind line ' ') 1) 4

/-- One iteration of the `while (std::getline(text, line))` body of
`PdfProcessor::processPdfs` (pdf_processor.cpp:131-201): the last-four
search (with `continue` on a match), the section-title gate
(`transactionTitleCount < 1`, with `continue` either way), then the
new/interest/old transaction branches each guarded by the skip pattern,
and finally the skipped-but-relevant branch. -/
def processLine (P : Patterns) (year : Int) (isJan : Bool)
    (st : ScanState) (line : String) : Except ParseErr ScanState :=
  if !st.lastFourFound && P.isLastFour line then do
    let lf ← extractLastFour line
    Except.ok { st with lastFour := lf, lastFourFound := true }
  else if st.titleCount < 1 then
    if P.isTitle line then Except.ok { st with titleCount := st.titleCount + 1 }
    else Except.ok st
  else if P.isTxNew line then
    if !P.isSkip line then do
      let t ← generateTransaction line year isJan st.lastFour false false
      Except.ok { st with transactions := st.transactions ++ [t] }
    else do
      let tl ← trim line
      Except.ok { st with skippedLines := st.skippedLines ++ [tl] }
  else if P.isTxInterest line then
    if !P.isSkip line then do
      let t ← generateTransaction line year isJan st.lastFour false true
      Except.ok { st with transactions := st.transactions ++ [t] }
    else do
      let tl ← trim line
      Except.ok { st with skippedLines := st.skippedLines ++ [tl] }
  else if P.isTxOld line then
    if !P.isSkip line then do
      let t ← generateTransaction line year isJan st.lastFour true false
      Except.ok { st with transactions := st.transactions ++ [t] }
    else do
      let tl ← trim line
      Except.ok { st with skippedLines := st.skippedLines ++ [tl] }
  else if P.isSkipRelevant line then do
    let tl ← trim line
    Except.ok { st with skippedLines := st.skippedLines ++ [tl] }
  else Except.ok st

/-- The statement's lines scanned in order (pages are concatenated into one
logical stream; the loop state persists across page boundaries).  A thrown
exception aborts the whole run, hence the `Except` threading. -/
def scanLines (P : Patterns) (year : Int) (isJan : Bool) :
    ScanState → List String → Except ParseErr ScanState
  | st, [] => Except.ok st
  | st, l :: ls => do
    let st1 ← processLine P year isJan st l
    scanLines P year isJan st1 ls

/-- pdf_processor.cpp:94-98: statement month/day/year from the path —
`slashIndex = file.find("\\")` (the FIRST backslash, `npos` when absent),
`month = file.substr(slashIndex + 1, 2)`, `day = substr(slashIndex + 3, 2)`,
`year = "20" + substr(slashIndex + 5, 2)`, all in `size_t` arithmetic (the
pure C++ local `slashIndex` is recomputed in place of a binder). -/
def extractStatementDate (file : String) :
    Except ParseErr (String × String × String) := do
  let month ← cppSubstrLen file (addWrap (cppFind file '\\' 0) 1) 2
  let day ← cppSubstrLen file (addWrap (cppFind file '\\' 0) 3) 2
  let yearTail ← cppSubstrLen file (addWrap (cppFind file '\\' 0) 5) 2
  Except.ok (month, day, "20" ++ yearTail)

/-- Content written by `PdfProcessor::generateCsvFile`
(pdf_processor.cpp:301-322): the literal `"None"` when the collection is
empty, otherwise the per-transaction lines in order.  `fmt` stands for
`Transaction::getCsvFormat` (its class is outside the given sources). -/
def generateCsvContent (fmt : Transaction → String) (ts : List Transaction) : String :=
  if ts.length = 0 then "None"
  else ts.foldl (fun acc t => acc ++ fmt t ++ "\n") ""

/-- Modelled from the spec: `QuickSort::quickSort` lives in the missing
`quick_sort.h`; §4.4 fixes a deterministic comparison quicksort over the
transaction list, ordered ascending by date. -/
def dateLt (a b : Date) : Bool :=
  a.year < b.year ||
    (a.year == b.year && (a.month < b.month ||
      (a.month == b.month && a.day < b.day)))

/-- Modelled from the spec: the sort's comparator, ascending by date (§4.4). -/
def txLt (a b : Transaction) : Bool := dateLt a.date b.date

/-- Modelled from the spec: deterministic comparison quicksort (§4.4),
first element as pivot, partitioning by the strict comparator. -/
def qsort (lt : α → α → Bool) : List α → List α
  | [] => []
  | x :: xs =>
    qsort lt (xs.filter (fun y => lt y x)) ++
      x :: qsort lt (xs.filter (fun y => !(lt y x)))
termination_by l => l.length
decreasing_by
  · exact Nat.lt_succ_of_le (List.length_filter_le _ _)
  · exact Nat.lt_succ_of_le (List.length_filter_le _ _)

/-- Modelled from the spec: `PdfProcessor::sortTransactions` sorts the
collected transactions with the quicksort (§4.4). -/
def sortTransactions (ts : List Transaction) : List Transaction := qsort txLt ts

/-! ### Concrete fixtures used by witnesses and counterexamples -/

/-- The spec's §8 example input line for the new format (it carries a
single `MM/DD` date, as written there). -/
def exampleLineC1 : String := "1234   01/15  REF001234   STORE PURCHASE          45.67"

/-- The record the spec's example claims for `exampleLineC1`. -/
def claimedRecordC1 : Transaction :=
  { lastFour := "1234", date := ⟨2024, 1, 15⟩, refNum := "REF001234",
    name := "STORE PURCHASE", amount := mkRat 4567 100 }

/-- The record the code actually extracts from `exampleLineC1`: with no
second `/` in the line, the date-removal `substr(find("/", dateIdx+1) + 3)`
wraps `npos + 3` to position `2`, so the reference number is read from the
date's position. -/
def actualRecordC1 : Transaction :=
  { lastFour := "1234", date := ⟨2024, 1, 15⟩, refNum := "01/15  RE",
    name := "F001234   STORE PURCHASE", amount := mkRat 4567 100 }

/-- A well-formed new-format line (two dates, as the extractor expects). -/
def tline1 : String := "1234  01/15 01/16  REF001234  STOREA  45.67"

/-- A second well-formed new-format line. -/
def tline2 : String := "1234  02/20 02/21  REF002345  STOREB  10.00"

/-- A line carrying the account's last four digits as its final token. -/
def lastFourLine : String := "Account Number Ending In 9876"

/-- A line standing for the transaction-section title. -/
def titleLine : String := "Purchases Balance"

/-- Modelled from the spec: a concrete instantiation of the regex patterns
of the missing `constants.h`, recognising the fixture lines above
(§4.1-§4.2 describe the patterns only abstractly). -/
def Ptest : Patterns :=
  { isLastFour := fun l => l == lastFourLine
    isTitle := fun l => l == titleLine
    isTxNew := fun l => l == tline1 || l == tline2
    isTxInterest := fun _ => false
    isTxOld := fun _ => false
    isSkip := fun _ => false
    isSkipRelevant := fun _ => false }

/-- A December-transaction line on a January statement. -/
def decLine : String := "1234  12/15 12/16  REF001234  STOREA  45.67"

/-- The record extracted from `decLine` with statement year 2024 and a
January statement: the year is decremented to 2023. -/
def tDec : Transaction :=
  { lastFour := "1234", date := ⟨2023, 12, 15⟩, refNum := "REF001234",
    name := "STOREA", amount := mkRat 4567 100 }

/-- A transaction-shaped line that also matches the skip pattern. -/
def skipLine : String := "1234  01/15 01/16  REF001234  ONLINE PAYMENT  45.67"

/-- Modelled from the spec: patterns under which `skipLine` matches both
the new-format transaction shape and the skip pattern (§4.1). -/
def Pskip : Patterns :=
  { isLastFour := fun _ => false
    isTitle := fun l => l == titleLine
    isTxNew := fun l => l == skipLine
    isTxInterest := fun _ => false
    isTxOld := fun _ => false
    isSkip := fun l => l == skipLine
    isSkipRelevant := fun _ => false }

/-- A scanner state inside the transaction section with the last four found. -/
def stActive : ScanState :=
  { titleCount := 1, lastFourFound := true, lastFour := "9876",
    transactions := [], skippedLines := [] }

/-- The record `stActive` produces from `tline1`. -/
def txStActive : Transaction :=
  { lastFour := "9876", date := ⟨2024, 1, 15⟩, refNum := "REF001234",
    name := "STOREA", amount := mkRat 4567 100 }

/-- The state after `stActive` processes `tline1`. -/
def stActiveOut : ScanState :=
  { titleCount := 1, lastFourFound := true, lastFour := "9876",
    transactions := [txStActive], skippedLines := [] }

/-- A stand-in for `Transaction::getCsvFormat` (declared outside the given
sources), used to instantiate the CSV-content theorem. -/
def fmt0 : Transaction → String := fun t => t.name

/-- A transaction dated earlier than `tbSorted`. -/
def taSorted : Transaction :=
  { lastFour := "1234", date := ⟨2024, 1, 15⟩, refNum := "REF001234",
    name := "A", amount := mkRat 1 1 }

/-- A transaction dated later than `taSorted`. -/
def tbSorted : Transaction :=
  { lastFour := "1234", date := ⟨2024, 2, 20⟩, refNum := "REF002345",
    name := "B", amount := mkRat 2 1 }

/-! ### Helper lemmas -/

/-- Reducing a bind whose first computation succeeded. -/
theorem ok_bind {α β : Type} (a : α) (f : α → Except ParseErr β) :
    (Except.ok a >>= f) = f a := rfl

/-- Reducing a bind whose first computation failed. -/
theorem error_bind {α β : Type} (e : ParseErr) (f : α → Except ParseErr β) :
    ((Except.error e : Except ParseErr α) >>= f) = Except.error e := rfl

/-- Every error value is the one error. -/
theorem parseErr_eq (e : ParseErr) : e = ParseErr.malformedLine := by cases e; rfl

/-- A successful extraction carries the scanner-provided last four
unchanged, and its year is the statement year corrected by the
January/December rule applied to the parsed month. -/
theorem gen_ok_inv {line0 : String} {y : Int} {j : Bool} {lf : String}
    {o i : Bool} {t : Transaction}
    (h : generateTransaction line0 y j lf o i = Except.ok t) :
    t.lastFour = lf ∧
      t.date.year = (if j = true ∧ t.date.month = 12 then y - 1 else y) := by
  unfold generateTransaction at h
  cases hp : parseFields line0 o i with
  | error e => rw [hp] at h; exact absurd h (by simp)
  | ok v =>
    obtain ⟨m, d, rn, amt, nm⟩ := v
    rw [hp] at h
    simp only at h
    cases h
    refine ⟨rfl, ?_⟩
    cases j <;> by_cases h12 : m = 12 <;> simp_all

/-- Inverting a successful bind. -/
theorem exc_bind_ok_inv {α β : Type} {x : Except ParseErr α}
    {f : α → Except ParseErr β} {b : β}
    (h : (x >>= f) = Except.ok b) : ∃ a, x = Except.ok a ∧ f a = Except.ok b := by
  cases x with
  | error e => rw [error_bind] at h; exact absurd h (by simp)
  | ok a => rw [ok_bind] at h; exact ⟨a, rfl, h⟩

set_option maxRecDepth 2048 in
/-- Once the last four digits have been found, one scanner step preserves
the flag and the value, and any record it appends carries that value. -/
theorem processLine_lastFour_inv (P : Patterns) (y : Int) (j : Bool)
    (st st1 : ScanState) (line : String)
    (h0 : st.lastFourFound = true)
    (h : processLine P y j st line = Except.ok st1) :
    st1.lastFour = st.lastFour ∧ st1.lastFourFound = true ∧
      ∀ t ∈ st1.transactions, t ∈ st.transactions ∨ t.lastFour = st.lastFour := by
  unfold processLine at h
  rw [h0] at h
  simp only [Bool.not_true, Bool.false_and, Bool.false_eq_true, if_false] at h
  split at h
  · -- still seeking the section title
    split at h <;>
      (cases h; exact ⟨rfl, by simp [h0], fun t1 ht1 => Or.inl ht1⟩)
  · split at h
    · -- new-format transaction shape
      split at h
      · obtain ⟨a, hg, h2⟩ := exc_bind_ok_inv h
        cases h2
        refine ⟨rfl, rfl, fun t1 ht1 => ?_⟩
        simp only [List.mem_append, List.mem_singleton] at ht1
        rcases ht1 with h3 | h3
        · exact Or.inl h3
        · rw [h3]; exact Or.inr (gen_ok_inv hg).1
      · obtain ⟨a, hg, h2⟩ := exc_bind_ok_inv h
        cases h2
        exact ⟨rfl, rfl, fun t1 ht1 => Or.inl ht1⟩
    · split at h
      · -- interest-charge shape
        split at h
        · obtain ⟨a, hg, h2⟩ := exc_bind_ok_inv h
          cases h2
          refine ⟨rfl, rfl, fun t1 ht1 => ?_⟩
          simp only [List.mem_append, List.mem_singleton] at ht1
          rcases ht1 with h3 | h3
          · exact Or.inl h3
          · rw [h3]; exact Or.inr (gen_ok_inv hg).1
        · obtain ⟨a, hg, h2⟩ := exc_bind_ok_inv h
          cases h2
          exact ⟨rfl, rfl, fun t1 ht1 => Or.inl ht1⟩
      · split at h
        · -- old-format shape
          split at h
          · obtain ⟨a, hg, h2⟩ := exc_bind_ok_inv h
            cases h2
            refine ⟨rfl, rfl, fun t1 ht1 => ?_⟩
            simp only [List.mem_append, List.mem_singleton] at ht1
            rcases ht1 with h3 | h3
            · exact Or.inl h3
            · rw [h3]; exact Or.inr (gen_ok_inv hg).1
          · obtain ⟨a, hg, h2⟩ := exc_bind_ok_inv h
            cases h2
            exact ⟨rfl, rfl, fun t1 ht1 => Or.inl ht1⟩
        · split at h
          · -- skipped-but-relevant
            obtain ⟨a, hg, h2⟩ := exc_bind_ok_inv h
            cases h2
            exact ⟨rfl, rfl, fun t1 ht1 => Or.inl ht1⟩
          · -- ignored line
            cases h
            exact ⟨rfl, by simp [h0], fun t1 ht1 => Or.inl ht1⟩

/-- The last-four invariant extended over a whole line stream. -/
theorem scanLines_lastFour_inv (P : Patterns) (y : Int) (j : Bool)
    (lines : List String) : ∀ st0 st1 : ScanState,
    st0.lastFourFound = true →
    scanLines P y j st0 lines = Except.ok st1 →
    st1.lastFour = st0.lastFour ∧ st1.lastFourFound = true ∧
      ∀ t ∈ st1.transactions, t ∈ st0.transactions ∨ t.lastFour = st0.lastFour := by
  induction lines with
  | nil =>
    intro st0 st1 h0 h
    unfold scanLines at h
    cases h
    exact ⟨rfl, h0, fun t ht => Or.inl ht⟩
  | cons l ls ih =>
    intro st0 st1 h0 h
    unfold scanLines at h
    obtain ⟨st2, hp, h2⟩ := exc_bind_ok_inv h
    obtain ⟨e1, e2, e3⟩ := processLine_lastFour_inv P y j st0 st2 l h0 hp
    obtain ⟨f1, f2, f3⟩ := ih st2 st1 e2 h2
    refine ⟨by rw [f1, e1], f2, fun t ht => ?_⟩
    rcases f3 t ht with h4 | h4
    · rcases e3 t h4 with h5 | h5
      · exact Or.inl h5
      · exact Or.inr h5
    · rw [e1] at h4
      exact Or.inr h4

/-- A predicate false everywhere on a list is never found. -/
theorem charFind_eq_none {p : Char → Bool} {l : List Char}
    (h : ∀ a ∈ l, p a = false) : ∀ i, charFind p l i = none := by
  induction l with
  | nil => intro i; rfl
  | cons a l ih =>
    intro i
    unfold charFind
    rw [h a (List.mem_cons_self a l), if_neg (by simp)]
    exact ih (fun b hb => h b (List.mem_cons_of_mem a hb)) (i + 1)

/-- `find` on a string not containing the character returns `npos`. -/
theorem cppFind_eq_npos {s : String} {c : Char} {start : Nat}
    (h : ∀ a ∈ s.toList, (a == c) = false) : cppFind s c start = npos := by
  unfold cppFind
  rw [charFind_eq_none (fun a ha => h a (List.drop_subset start s.toList ha)) 0]

/-- A successful strip leaves a suffix of the original line. -/
theorem stripLastFour_drop {line0 line : String} {o i : Bool}
    (h : stripLastFour line0 o i = Except.ok line) :
    ∃ k, line.toList = line0.toList.drop k := by
  unfold stripLastFour at h
  split at h
  · unfold cppSubstr at h
    split at h
    · exact absurd h (by simp)
    · cases h
      exact ⟨_, rfl⟩
  · cases h
    exact ⟨0, rfl⟩

/-- `npos - 2` in `size_t` arithmetic. -/
theorem subWrap_npos_2 : subWrap npos 2 = 2 ^ 64 - 3 := by decide

/-- Field extraction on a line with no `/` at all fails: the month
position `dateIdx - 2` wraps to `2^64 - 3`, out of range for `substr`. -/
theorem no_slash_parseFields_fails (line0 : String) (o i : Bool)
    (hs : ∀ a ∈ line0.toList, (a == '/') = false)
    (hlen : line0.toList.length + 3 < 2 ^ 64) :
    parseFields line0 o i = Except.error ParseErr.malformedLine := by
  unfold parseFields
  cases hstrip : stripLastFour line0 o i with
  | error e => rw [error_bind]
  | ok line =>
    obtain ⟨k, hk⟩ := stripLastFour_drop hstrip
    have hs2 : ∀ a ∈ line.toList, (a == '/') = false := by
      intro a ha
      exact hs a (List.drop_subset k line0.toList (hk ▸ ha))
    have hlen2 : line.toList.length ≤ line0.toList.length := by
      rw [hk, List.length_drop]
      omega
    have hmd : parseMonthDay line = Except.error ParseErr.malformedLine := by
      unfold parseMonthDay
      rw [cppFind_eq_npos hs2, subWrap_npos_2]
      have herr : cppSubstrLen line (2 ^ 64 - 3) 2 =
          Except.error ParseErr.malformedLine := by
        unfold cppSubstrLen
        rw [if_pos (by omega)]
      rw [herr, error_bind]
    rw [ok_bind]
    rw [hmd, error_bind]

/-- Finding a character that occurs right after a prefix free of it. -/
theorem charFind_append {p : Char → Bool} {c : Char} {l2 : List Char}
    (hc : p c = true) : ∀ (l1 : List Char), (∀ a ∈ l1, p a = false) →
    ∀ i, charFind p (l1 ++ c :: l2) i = some (i + l1.length) := by
  intro l1
  induction l1 with
  | nil =>
    intro _ i
    rw [List.nil_append]
    unfold charFind
    rw [hc]
    simp
  | cons a l ih =>
    intro h i
    rw [List.cons_append]
    unfold charFind
    rw [h a (List.mem_cons_self a l), if_neg (by simp)]
    rw [ih (fun b hb => h b (List.mem_cons_of_mem a hb)) (i + 1)]
    simp
    omega

/-- Character decomposition of `dir ++ "\\" ++ tail`. -/
theorem toList_append3 (dir tail : String) :
    (dir ++ "\\" ++ tail).toList = (dir.toList ++ ['\\']) ++ tail.toList := by
  show (dir ++ "\\" ++ tail).data = (dir.data ++ ['\\']) ++ tail.data
  simp [String.data_append]

/-- `find("\\")` on a path whose first backslash follows `dir`. -/
theorem cppFind_first_backslash (dir tail : String)
    (hdir : '\\' ∉ dir.toList) :
    cppFind (dir ++ "\\" ++ tail) '\\' 0 = dir.toList.length := by
  unfold cppFind
  rw [List.drop_zero, toList_append3, List.append_assoc, List.singleton_append]
  rw [charFind_append (by simp) dir.toList
    (fun a ha => by
      have hne : a ≠ '\\' := fun hEq => hdir (hEq ▸ ha)
      simp [hne]) 0]
  simp

/-- `size_t` addition below the wrap bound is plain addition. -/
theorem addWrap_small {a b : Nat} (h : a + b < 2 ^ 64) : addWrap a b = a + b := by
  unfold addWrap
  omega

/-- Joining a cons of strings. -/
theorem join_cons (s : String) (l : List String) :
    String.join (s :: l) = s ++ String.join l := by
  apply String.ext
  rw [String.join_eq, String.join_eq]
  show (List.map String.data (s :: l)).flatten = (s ++ ⟨(l.map String.data).flatten⟩).data
  rw [List.map_cons, List.flatten_cons, String.data_append]

/-- The CSV fold is the join of the per-transaction lines. -/
theorem foldl_append_join (fmt : Transaction → String) (ts : List Transaction) :
    ∀ s : String, ts.foldl (fun acc t => acc ++ fmt t ++ "\n") s =
      s ++ String.join (ts.map (fun t => fmt t ++ "\n")) := by
  induction ts with
  | nil => intro s; simp [String.join]
  | cons t ts ih =>
    intro s
    rw [List.foldl_cons, ih, List.map_cons, join_cons]
    simp [String.append_assoc]

/-- Quicksort leaves a pairwise-nondescending list unchanged: the head
pivot's "less" partition is empty and its "not less" partition is the
whole tail. -/
theorem qsort_of_pairwise {α : Type} (lt : α → α → Bool) (l : List α)
    (h : List.Pairwise (fun a b => lt b a = false) l) : qsort lt l = l := by
  induction l with
  | nil => simp [qsort]
  | cons x xs ih =>
    rw [List.pairwise_cons] at h
    have h1 : xs.filter (fun y => lt y x) = [] :=
      List.filter_eq_nil_iff.mpr (fun a ha => by simp [h.1 a ha])
    have h2 : xs.filter (fun y => !(lt y x)) = xs :=
      List.filter_eq_self.mpr (fun a ha => by simp [h.1 a ha])
    rw [qsort, h1, h2, ih h.2]
    simp [qsort]

/-! ### Claim theorems -/

/-- C1 (counterexample): on the spec's example line the extractor does NOT
produce the claimed record — the line has no second `/`, so the
date-removal position `npos + 3` wraps to `2` and the reference number is
read from the date's own characters. -/
theorem spec_example_line_refuted :
    generateTransaction exampleLineC1 2024 false "1234" false false ≠
      Except.ok claimedRecordC1 := by decide

/-- C1 (amended): on the spec's example line the extractor returns date
2024-01-15, amount 45.67 and last four "1234" as claimed, but reference
number `"01/15  RE"` and name `"F001234   STORE PURCHASE"`. -/
theorem spec_example_line_actual :
    generateTransaction exampleLineC1 2024 false "1234" false false =
      Except.ok actualRecordC1 := by decide

/-- C2: with the gate `transactionTitleCount < 1`
(pdf_processor.cpp:148), a line stream holding exactly ONE occurrence of
the section-title pattern followed by a transaction-shaped line already
yields a transaction record — the code starts transaction parsing right
after the FIRST occurrence, contradicting its own comments
(pdf_processor.cpp:113, 145-147) and the spec. -/
theorem transaction_parsed_after_first_title :
    (scanLines Ptest 2024 false initState [titleLine, tline1]).map
        (fun st => st.transactions.length) = Except.ok 1 ∧
      List.countP Ptest.isTitle [titleLine, tline1] = 1 := by decide

/-- C3: for every successfully extracted record, the record's year is the
statement year minus one exactly when the statement is a January statement
and the parsed transaction month is December (12); in every other
combination it is the statement year (pdf_processor.cpp:244-252). -/
theorem year_correction_rule (line0 : String) (y : Int) (j : Bool)
    (lf : String) (o i : Bool) (t : Transaction)
    (h : generateTransaction line0 y j lf o i = Except.ok t) :
    t.date.year = if j = true ∧ t.date.month = 12 then y - 1 else y :=
  (gen_ok_inv h).2

/-- C3 witness: a December line on a January statement of year 2024 gets
year 2023. -/
theorem year_correction_rule_witness :
    tDec.date.year = if true = true ∧ tDec.date.month = 12
      then (2024 : Int) - 1 else 2024 :=
  year_correction_rule decLine 2024 true "1234" false false tDec (by decide)

/-- C4 (counterexample): on the POSIX-style path `"st/010224.pdf"` —
a path shape under which the file can be discovered — the code derives
month `"st"`, day `"/0"`, year `"2010"` instead of the filename's
`MMDDYY` fields `01`, `02`, `2024`: `file.find("\\")` returns `npos`,
and `npos + 1` wraps to position `0`. -/
theorem filename_date_posix_path_refuted :
    extractStatementDate "st/010224.pdf" = Except.ok ("st", "/0", "2010") ∧
      ("st" : String) ≠ "01" := by decide

/-- C4 (amended): the month/day/year are read at offsets 1/3/5 after the
FIRST backslash of the full path, so they equal the filename's `MMDDYY`
fields exactly when the first backslash is the final path separator:
for a path `dir ++ "\\" ++ tail` with no backslash in `dir`, the fields
are the first, second and third character pairs of `tail`. -/
theorem statement_date_from_first_backslash (dir tail : String)
    (hdir : '\\' ∉ dir.toList) (hlen : 4 ≤ tail.toList.length)
    (hsz : dir.toList.length + 5 < 2 ^ 64) :
    extractStatementDate (dir ++ "\\" ++ tail) =
      Except.ok (String.mk (tail.toList.take 2),
        String.mk ((tail.toList.drop 2).take 2),
        "20" ++ String.mk ((tail.toList.drop 4).take 2)) := by
  have hd := toList_append3 dir tail
  have hlendir : (dir.toList ++ ['\\']).length = dir.toList.length + 1 := by simp
  have htot : (dir ++ "\\" ++ tail).toList.length =
      dir.toList.length + 1 + tail.toList.length := by
    rw [hd]
    simp
    omega
  have hfind := cppFind_first_backslash dir tail hdir
  unfold extractStatementDate
  rw [hfind]
  have hm : cppSubstrLen (dir ++ "\\" ++ tail) (addWrap dir.toList.length 1) 2 =
      Except.ok (String.mk (tail.toList.take 2)) := by
    rw [addWrap_small (by omega)]
    unfold cppSubstrLen
    rw [if_neg (by omega), hd, List.drop_left' hlendir]
  have hday : cppSubstrLen (dir ++ "\\" ++ tail) (addWrap dir.toList.length 3) 2 =
      Except.ok (String.mk ((tail.toList.drop 2).take 2)) := by
    rw [addWrap_small (by omega)]
    unfold cppSubstrLen
    rw [if_neg (by omega), hd]
    rw [show dir.toList.length + 3 = (dir.toList ++ ['\\']).length + 2 by simp]
    rw [← List.drop_drop, List.drop_left]
  have hyear : cppSubstrLen (dir ++ "\\" ++ tail) (addWrap dir.toList.length 5) 2 =
      Except.ok (String.mk ((tail.toList.drop 4).take 2)) := by
    rw [addWrap_small (by omega)]
    unfold cppSubstrLen
    rw [if_neg (by omega), hd]
    rw [show dir.toList.length + 5 = (dir.toList ++ ['\\']).length + 4 by simp]
    rw [← List.drop_drop, List.drop_left]
  rw [hm, ok_bind, hday, ok_bind, hyear, ok_bind]

/-- C4 witness: a single-backslash path with an `MMDDYY` filename. -/
theorem statement_date_from_first_backslash_witness :
    extractStatementDate ("statements" ++ "\\" ++ "010224.pdf") =
      Except.ok (String.mk ("010224.pdf".toList.take 2),
        String.mk (("010224.pdf".toList.drop 2).take 2),
        "20" ++ String.mk (("010224.pdf".toList.drop 4).take 2)) :=
  statement_date_from_first_backslash "statements" "010224.pdf"
    (by decide) (by decide) (by decide)

/-- C5: inside the transaction section (title seen, last four found), a
line matching any transaction shape that also matches the skip pattern
produces no record: the state's transaction list is unchanged and the
trimmed line is appended to the skipped-lines log
(pdf_processor.cpp:157-200). -/
theorem skip_pattern_overrides_transaction (P : Patterns) (y : Int) (j : Bool)
    (st : ScanState) (line tl : String)
    (hTitle : 1 ≤ st.titleCount) (hL4 : st.lastFourFound = true)
    (hshape : P.isTxNew line = true ∨ P.isTxInterest line = true ∨
      P.isTxOld line = true)
    (hskip : P.isSkip line = true) (htrim : trim line = Except.ok tl) :
    processLine P y j st line =
      Except.ok { st with skippedLines := st.skippedLines ++ [tl] } := by
  have hlt : ¬ st.titleCount < 1 := by omega
  rcases hshape with h1 | h1 | h1
  · simp [processLine, hL4, hlt, h1, hskip, htrim, ok_bind]
  · by_cases hnew : P.isTxNew line
    · simp [processLine, hL4, hlt, hnew, hskip, htrim, ok_bind]
    · simp [processLine, hL4, hlt, hnew, h1, hskip, htrim, ok_bind]
  · by_cases hnew : P.isTxNew line
    · simp [processLine, hL4, hlt, hnew, hskip, htrim, ok_bind]
    · by_cases hint : P.isTxInterest line
      · simp [processLine, hL4, hlt, hnew, hint, hskip, htrim, ok_bind]
      · simp [processLine, hL4, hlt, hnew, hint, h1, hskip, htrim, ok_bind]

/-- C5 witness: a payment line matching both the new-format shape and the
skip pattern is logged, not recorded. -/
theorem skip_pattern_overrides_transaction_witness :
    processLine Pskip 2024 false stActive skipLine =
      Except.ok { stActive with
        skippedLines := stActive.skippedLines ++ [skipLine] } :=
  skip_pattern_overrides_transaction Pskip 2024 false stActive skipLine
    skipLine (by decide) rfl (Or.inl (by decide)) (by decide) (by decide)

/-- C6 (counterexample): the spec's own new-format example line carries
exactly one `/`, so the second `/` the date-removal step looks for is
absent — yet extraction does NOT fail: the `npos + 3` position wraps to
`2` and a (mis-parsed) record is produced. -/
theorem missing_second_slash_still_succeeds :
    (exampleLineC1.toList.filter (fun c => c == '/')).length = 1 ∧
      generateTransaction exampleLineC1 2024 false "1234" false false ≠
        Except.error ParseErr.malformedLine := by decide

/-- C6 (amended): extraction does fail with `MalformedLineError` when the
date delimiter `/` is absent from the whole line (for any flags and any
line of `size_t`-representable length); but the absence of the later
expected delimiter (the second `/`) does not raise an error. -/
theorem no_slash_extraction_fails (line0 : String) (y : Int) (j : Bool)
    (lf : String) (o i : Bool)
    (hs : '/' ∉ line0.toList)
    (hlen : line0.toList.length + 3 < 2 ^ 64) :
    generateTransaction line0 y j lf o i = Except.error ParseErr.malformedLine := by
  unfold generateTransaction
  have hs2 : ∀ a ∈ line0.toList, (a == '/') = false := by
    intro a ha
    have hne : a ≠ '/' := fun hEq => hs (hEq ▸ ha)
    simp [hne]
  rw [no_slash_parseFields_fails line0 o i hs2 hlen]

/-- C6 witness: a line with no `/` fails. -/
theorem no_slash_extraction_fails_witness :
    generateTransaction "NOSLASH" 2024 false "1234" false false =
      Except.error ParseErr.malformedLine :=
  no_slash_extraction_fails "NOSLASH" 2024 false "1234" false false
    (by decide) (by decide)

/-- C7 (counterexample): when the last-four marker line only appears
after transaction lines have begun, records of ONE statement carry
different last-four values — the first record gets the default `""`,
a later one gets `"9876"`. -/
theorem lastFour_differs_across_records :
    (scanLines Ptest 2024 false initState
        [titleLine, tline1, lastFourLine, tline2]).map
        (fun st => st.transactions.map (fun t => t.lastFour)) =
      Except.ok ["", "9876"] ∧ ("" : String) ≠ "9876" := by decide

/-- C7 (amended): if the last four HAS been found before any record is
produced (the scan starts with `lastFourFound` set and no transactions),
then the value never changes and every record of the statement carries
it. -/
theorem lastFour_found_first_is_constant (P : Patterns) (y : Int) (j : Bool)
    (lines : List String) (st0 st1 : ScanState)
    (h0 : st0.lastFourFound = true) (hempty : st0.transactions = [])
    (h : scanLines P y j st0 lines = Except.ok st1) :
    st1.lastFour = st0.lastFour ∧
      ∀ t ∈ st1.transactions, t.lastFour = st0.lastFour := by
  obtain ⟨e1, _, e3⟩ := scanLines_lastFour_inv P y j lines st0 st1 h0 h
  refine ⟨e1, fun t ht => ?_⟩
  rcases e3 t ht with h4 | h4
  · rw [hempty] at h4
    cases h4
  · exact h4

/-- C7 witness: with the last four `"9876"` found before the transaction
line, the produced record carries `"9876"`. -/
theorem lastFour_found_first_is_constant_witness :
    stActiveOut.lastFour = stActive.lastFour ∧
      txStActive.lastFour = stActive.lastFour :=
  ⟨(lastFour_found_first_is_constant Ptest 2024 false [tline1] stActive
      stActiveOut rfl rfl (by decide)).1,
   (lastFour_found_first_is_constant Ptest 2024 false [tline1] stActive
      stActiveOut rfl rfl (by decide)).2 txStActive (by decide)⟩

/-- C8: the CSV content is exactly the literal `"None"` when the
transaction collection is empty, and otherwise one line per transaction,
in order (pdf_processor.cpp:301-322). -/
theorem csv_none_or_lines (fmt : Transaction → String) (ts : List Transaction) :
    (ts = [] → generateCsvContent fmt ts = "None") ∧
    (ts ≠ [] → generateCsvContent fmt ts =
      String.join (ts.map (fun t => fmt t ++ "\n"))) := by
  constructor
  · intro h
    subst h
    rfl
  · intro h
    unfold generateCsvContent
    rw [if_neg (by simpa using h), foldl_append_join, String.empty_append]

/-- C8 witness: the empty collection gives `"None"`; a singleton gives
its one line. -/
theorem csv_none_or_lines_witness :
    generateCsvContent fmt0 [] = "None" ∧
      generateCsvContent fmt0 [taSorted] =
        String.join ([taSorted].map (fun t => fmt0 t ++ "\n")) :=
  ⟨(csv_none_or_lines fmt0 []).1 rfl,
   (csv_none_or_lines fmt0 [taSorted]).2 (by simp)⟩

/-- C9: sorting an already-sorted transaction collection (pairwise
nondescending under the sort's comparator) returns a sequence identical
to the input. -/
theorem sortTransactions_idem (ts : List Transaction)
    (h : List.Pairwise (fun a b => txLt b a = false) ts) :
    sortTransactions ts = ts :=
  qsort_of_pairwise txLt ts h

/-- C9 witness: a concrete sorted two-element collection is unchanged. -/
theorem sortTransactions_idem_witness :
    sortTransactions [taSorted, tbSorted] = [taSorted, tbSorted] :=
  sortTransactions_idem [taSorted, tbSorted]
    (by simp [List.pairwise_cons]; decide)

/-- C10: `trim` does NOT return normally on every input, and does not
always remove trailing whitespace: on the empty string and on
whitespace-only strings `substr(npos)` throws `std::out_of_range`, and
when leading whitespace was removed the trailing cut uses an index of the
ORIGINAL string, leaving trailing blanks behind
(pdf_processor.cpp:19-28). -/
theorem trim_raises_and_keeps_trailing :
    trim "" = Except.error ParseErr.malformedLine ∧
      trim "   " = Except.error ParseErr.malformedLine ∧
      trim "  ab  " = Except.ok "ab  " ∧ ("ab  " : String) ≠ "ab" := by decide

end WFStmt
